import Mathlib

/-!
Shallow embedding of `src/fs/uhyve.rs` from rustbunker/kernel: the uhyve
paravirtualized filesystem bridge.  Each guest-side operation builds a wire
structure, hands it to the host through `uhyve_send` (one fixed I/O port per
operation kind), and then reads the result field the host wrote back into the
same structure.  We model the host's write-back as an explicit argument of each
operation and record the hypercalls an operation issues as a list, so every
operation becomes a pure function `inputs → hostResult → result × trace`.

External collaborators that the source file uses but that are not part of it
(the error-kind enumeration `crate::fd::IoError`, the seek-origin encoding
`crate::fs::SeekWhence`, the global mount table `crate::fs::FILESYSTEM`, and
the shared-ownership reference counting of `alloc::sync::Arc`) are modelled
from the specification, each marked `Modelled from the spec:` in its doc
comment.
-/

/-- The fixed I/O port for the Write operation (`UHYVE_PORT_WRITE`). -/
def UHYVE_PORT_WRITE : Nat := 0x400

/-- The fixed I/O port for the Open operation (`UHYVE_PORT_OPEN`). -/
def UHYVE_PORT_OPEN : Nat := 0x440

/-- The fixed I/O port for the Close operation (`UHYVE_PORT_CLOSE`). -/
def UHYVE_PORT_CLOSE : Nat := 0x480

/-- The fixed I/O port for the Read operation (`UHYVE_PORT_READ`). -/
def UHYVE_PORT_READ : Nat := 0x500

/-- The fixed I/O port for the Lseek operation (`UHYVE_PORT_LSEEK`). -/
def UHYVE_PORT_LSEEK : Nat := 0x580

/-- The fixed I/O port for the Unlink operation (`UHYVE_PORT_UNLINK`). -/
def UHYVE_PORT_UNLINK : Nat := 0x840

/-- Modelled from the spec: the external error-kind enumeration
(`crate::fd::IoError`, not under `src/`).  Only the kinds the spec names are
listed: "no such file", "permission denied", "invalid argument",
"not implemented", plus the generic EPERM. -/
inductive IoError
  | EPERM
  | ENOENT
  | EACCES
  | EINVAL
  | ENOSYS
deriving DecidableEq, Repr

/-- Modelled from the spec: the partial mapping from a host-written result
code to the guest error kind (`num::FromPrimitive::from_i32 / from_isize` on
`IoError`).  The spec fixes "Error codes returned by the host are negated
POSIX-style codes" and gives the scenarios host `-2` ↦ "file not found" and
host `-13` ↦ "permission denied"; unknown codes are unmapped (`none`). -/
def IoError.fromCode (code : Int) : Option IoError :=
  if code = -1 then some .EPERM
  else if code = -2 then some .ENOENT
  else if code = -13 then some .EACCES
  else if code = -22 then some .EINVAL
  else if code = -38 then some .ENOSYS
  else none

/-- Outcome of a guest-side operation.  `ok` and `err` are the two sides of
the Rust `Result`; `panicked` is the outcome of `Option::unwrap` on `None`,
which in the source happens exactly when the host wrote a result code that
the error-kind mapping does not recognize.  A panic is a loud, distinct
condition, never a default error kind. -/
inductive Outcome (α : Type)
  | ok (v : α)
  | err (e : IoError)
  | panicked
deriving DecidableEq, Repr

/-- `Err(num::FromPrimitive::from_…(code).unwrap())` as the source writes it:
a recognized host code becomes the mapped typed error, an unrecognized one
panics. -/
def mapHostError {α : Type} (code : Int) : Outcome α :=
  match IoError.fromCode code with
  | some e => Outcome.err e
  | none => Outcome.panicked

/-- One hypercall as observed at the transport boundary (`uhyve_send`): which
port was signalled and what the wire structure carried at send time.  Path
strings stand for the guest memory the embedded physical address points at;
virtual-to-physical translation is the external Address Translator. -/
inductive Hypercall
  | openCall (path : String) (flags : Int) (mode : Int)
  | closeCall (fd : Int)
  | readCall (fd : Int) (len : Nat)
  | writeCall (fd : Int) (len : Nat)
  | lseekCall (fd : Int) (offset : Int) (whence : Int)
  | unlinkCall (path : String)
deriving DecidableEq, Repr

/-- The port a hypercall is signalled on (the `UHYVE_PORT_*` constant passed
to `uhyve_send` at the corresponding call site). -/
def Hypercall.port : Hypercall → Nat
  | .openCall .. => UHYVE_PORT_OPEN
  | .closeCall .. => UHYVE_PORT_CLOSE
  | .readCall .. => UHYVE_PORT_READ
  | .writeCall .. => UHYVE_PORT_WRITE
  | .lseekCall .. => UHYVE_PORT_LSEEK
  | .unlinkCall .. => UHYVE_PORT_UNLINK

/-- Modelled from the spec: the seek-origin encoding (`crate::fs::SeekWhence`,
not under `src/`): "Whence code is encoded as a small integer matching the
conventional start/current/end seek origins". -/
inductive SeekWhence
  | set
  | cur
  | toEnd
deriving DecidableEq, Repr

/-- `num::ToPrimitive::to_i32` on `SeekWhence` (see `SysLseek::new`). -/
def SeekWhence.toCode : SeekWhence → Int
  | .set => 0
  | .cur => 1
  | .toEnd => 2

/-! ## Wire structures

The six `#[repr(C, packed)]` request/response records.  Fields are kept in
source order; the embedded pointer fields (`name`, `buf`) are represented by
the guest data they address (the path string) or by the length alone (the I/O
buffer, whose contents the bridge never inspects). -/

/-- `SysOpen { name, flags, mode, ret }`. -/
structure SysOpen where
  name : String
  flags : Int
  mode : Int
  ret : Int
deriving DecidableEq, Repr

/-- `SysOpen::new`: inputs filled in, `ret` primed with `-1`. -/
def SysOpen.new (name : String) (flags : Int) (mode : Int) : SysOpen :=
  { name := name, flags := flags, mode := mode, ret := -1 }

/-- `SysClose { fd, ret }`. -/
structure SysClose where
  fd : Int
  ret : Int
deriving DecidableEq, Repr

/-- `SysClose::new`: `ret` primed with `-1`. -/
def SysClose.new (fd : Int) : SysClose :=
  { fd := fd, ret := -1 }

/-- `SysRead { fd, buf, len, ret }` (the buffer pointer is represented by its
length). -/
structure SysRead where
  fd : Int
  len : Nat
  ret : Int
deriving DecidableEq, Repr

/-- `SysRead::new`: `ret` primed with `-1`. -/
def SysRead.new (fd : Int) (len : Nat) : SysRead :=
  { fd := fd, len := len, ret := -1 }

/-- `SysWrite { fd, buf, len }`.  The Write wire structure has NO result
field: the host writes nothing back that the guest reads. -/
structure SysWrite where
  fd : Int
  len : Nat
deriving DecidableEq, Repr

/-- `SysWrite::new`. -/
def SysWrite.new (fd : Int) (len : Nat) : SysWrite :=
  { fd := fd, len := len }

/-- `SysLseek { fd, offset, whence }`.  The `offset` field is in/out: the host
overwrites it with the resulting absolute offset. -/
structure SysLseek where
  fd : Int
  offset : Int
  whence : Int
deriving DecidableEq, Repr

/-- `SysLseek::new`: encodes the whence argument via `to_i32`. -/
def SysLseek.new (fd : Int) (offset : Int) (whence : SeekWhence) : SysLseek :=
  { fd := fd, offset := offset, whence := whence.toCode }

/-- `SysUnlink { name, ret }`. -/
structure SysUnlink where
  name : String
  ret : Int
deriving DecidableEq, Repr

/-- `SysUnlink::new`: `ret` primed with `-1`. -/
def SysUnlink.new (name : String) : SysUnlink :=
  { name := name, ret := -1 }

/-! ## File handle operations (`UhyveFileHandleInner`)

A handle wraps the host-assigned descriptor.  Each operation is parameterized
by the value the host writes into the wire structure's result field during
`uhyve_send`. -/

/-- `UhyveFileHandleInner::read`: send `SysRead` on the Read port; the host
writes `hostRet` into `ret`; nonnegative `ret` is the byte count, negative is
mapped through the error-kind enumeration (`from_isize(...).unwrap()`). -/
def UhyveFileHandleInner.read (fd : Int) (len : Nat) (hostRet : Int) :
    Outcome Int × List Hypercall :=
  let s := SysRead.new fd len
  let s := { s with ret := hostRet }
  ((if s.ret ≥ 0 then Outcome.ok s.ret else mapHostError s.ret),
   [Hypercall.readCall fd len])

/-- `UhyveFileHandleInner::write`: send `SysWrite` on the Write port and
return `Ok(syswrite.len)` unconditionally — `SysWrite` has no result field, so
nothing host-written is ever inspected.  (`len.try_into().unwrap()` is the
usize→isize conversion; Rust slice lengths never exceed `isize::MAX`, so it is
total here and modelled as `Int.ofNat`.) -/
def UhyveFileHandleInner.write (fd : Int) (len : Nat) :
    Outcome Int × List Hypercall :=
  let s := SysWrite.new fd len
  (Outcome.ok (Int.ofNat s.len), [Hypercall.writeCall s.fd s.len])

/-- `UhyveFileHandleInner::lseek`: send `SysLseek` on the Lseek port; the host
overwrites the `offset` field with `hostOffset`; a nonnegative result is the
absolute offset, any negative result becomes `EINVAL`. -/
def UhyveFileHandleInner.lseek (fd : Int) (offset : Int) (whence : SeekWhence)
    (hostOffset : Int) : Outcome Int × List Hypercall :=
  let s := SysLseek.new fd offset whence
  let sent := [Hypercall.lseekCall s.fd s.offset s.whence]
  let s := { s with offset := hostOffset }
  ((if s.offset ≥ 0 then Outcome.ok s.offset else Outcome.err IoError.EINVAL),
   sent)

/-- `impl Drop for UhyveFileHandleInner`: build `SysClose` over the stored
descriptor and send it on the Close port.  The host-written `ret` is
discarded. -/
def UhyveFileHandleInner.dropClose (fd : Int) : List Hypercall :=
  let s := SysClose.new fd
  [Hypercall.closeCall s.fd]

/-- `UhyveFileHandle`: the shared (`Arc<SpinMutex<…>>`) wrapper, identified by
the descriptor the inner handle stores. -/
structure UhyveFileHandle where
  fd : Int
deriving DecidableEq, Repr

/-- `UhyveFileHandle::new(fd)`. -/
def UhyveFileHandle.new (fd : Int) : UhyveFileHandle :=
  { fd := fd }

/-! ## Path construction and the directory node (`UhyveDirectory`) -/

/-- The iterator chain
`components.iter().map(|v| "/".to_owned() + v).collect::<String>()`:
prefix `/` to each component and concatenate in order. -/
def concatPath : List String → String
  | [] => ""
  | v :: rest => "/" ++ v ++ concatPath rest

/-- The path string `traverse_open` builds: the NUL-terminated root `"/\0"`
when no components remain, otherwise the `/`-prefixed concatenation. -/
def buildOpenPath (components : List String) : String :=
  if components = [] then "/\x00" else concatPath components

/-- The path string `traverse_unlink` builds: the bare root `"/"` when no
components remain, otherwise the `/`-prefixed concatenation. -/
def buildUnlinkPath (components : List String) : String :=
  if components = [] then "/" else concatPath components

/-- `UhyveDirectory::traverse_opendir`: unconditionally `Err(ENOSYS)`, no
hypercall. -/
def UhyveDirectory.traverse_opendir (_components : List String) :
    Outcome UhyveFileHandle × List Hypercall :=
  (Outcome.err IoError.ENOSYS, [])

/-- The external `crate::fs::FileAttr` record; its contents never matter here
because the node never produces one. -/
structure FileAttr where
deriving DecidableEq, Repr

/-- `UhyveDirectory::traverse_stat`: unconditionally `Err(ENOSYS)`, no
hypercall. -/
def UhyveDirectory.traverse_stat (_components : List String) :
    Outcome FileAttr × List Hypercall :=
  (Outcome.err IoError.ENOSYS, [])

/-- `UhyveDirectory::traverse_lstat`: unconditionally `Err(ENOSYS)`, no
hypercall. -/
def UhyveDirectory.traverse_lstat (_components : List String) :
    Outcome FileAttr × List Hypercall :=
  (Outcome.err IoError.ENOSYS, [])

/-- `UhyveDirectory::traverse_open`: build the path, send `SysOpen` with the
option bits and mode `0` on the Open port; the host writes `hostRet` into
`ret`; a positive result wraps a fresh `UhyveFileHandle` around the new
descriptor, a non-positive one is mapped through `from_i32(...).unwrap()`. -/
def UhyveDirectory.traverse_open (components : List String) (opt : Int)
    (hostRet : Int) : Outcome UhyveFileHandle × List Hypercall :=
  let path := buildOpenPath components
  let s := SysOpen.new path opt 0
  let sent := [Hypercall.openCall s.name s.flags s.mode]
  let s := { s with ret := hostRet }
  ((if s.ret > 0 then Outcome.ok (UhyveFileHandle.new s.ret)
    else mapHostError s.ret),
   sent)

/-- `UhyveDirectory::traverse_unlink`: build the path, send `SysUnlink` on the
Unlink port; the host writes `hostRet` into `ret`; zero is success, anything
else is mapped through `from_i32(...).unwrap()`. -/
def UhyveDirectory.traverse_unlink (components : List String) (hostRet : Int) :
    Outcome Unit × List Hypercall :=
  let path := buildUnlinkPath components
  let s := SysUnlink.new path
  let sent := [Hypercall.unlinkCall s.name]
  let s := { s with ret := hostRet }
  ((if s.ret = 0 then Outcome.ok () else mapHostError s.ret), sent)

/-- `UhyveDirectory::traverse_rmdir`: unconditionally `Err(ENOSYS)`, no
hypercall. -/
def UhyveDirectory.traverse_rmdir (_components : List String) :
    Outcome Unit × List Hypercall :=
  (Outcome.err IoError.ENOSYS, [])

/-- `UhyveDirectory::traverse_mkdir`: unconditionally `Err(ENOSYS)`, no
hypercall, whatever the mode. -/
def UhyveDirectory.traverse_mkdir (_components : List String) (_mode : Nat) :
    Outcome Unit × List Hypercall :=
  (Outcome.err IoError.ENOSYS, [])

/-! ## Handle lifecycle (`Arc` sharing, `Clone`, `Drop`)

Modelled from the spec: `alloc::sync::Arc` shared ownership — "Ownership is
shared: multiple references may exist (e.g., duplicated handles), the
underlying host descriptor is closed exactly once, triggered by release of
the last reference".  `impl Clone for UhyveFileHandle` clones the `Arc`
(same descriptor and guard, reference count +1, no hypercall); dropping a
reference decrements the count, and dropping the last one runs
`Drop for UhyveFileHandleInner`, which issues the Close hypercall. -/

/-- A lifecycle event on one shared handle: duplicate a live reference
(`Clone for UhyveFileHandle`) or drop a live reference. -/
inductive HandleEvent
  | cloneRef
  | dropRef
deriving DecidableEq, Repr

/-- Run a handle's lifecycle from reference count `rc`, collecting the
hypercalls issued: clones bump the count silently; a drop at count 1 runs
`UhyveFileHandleInner.dropClose` (the `Drop` impl), any other drop just
decrements. -/
def runHandle : Nat → Int → List HandleEvent → List Hypercall
  | _, _, [] => []
  | rc, fd, HandleEvent.cloneRef :: es => runHandle (rc + 1) fd es
  | rc, fd, HandleEvent.dropRef :: es =>
    if rc = 1 then UhyveFileHandleInner.dropClose fd ++ runHandle 0 fd es
    else runHandle (rc - 1) fd es

/-- Normal drop ordering from reference count `rc`: every event acts on a
live reference (count still positive) and by the end every reference has been
dropped. -/
def validFrom : Nat → List HandleEvent → Bool
  | rc, [] => rc == 0
  | rc, HandleEvent.cloneRef :: es => decide (0 < rc) && validFrom (rc + 1) es
  | rc, HandleEvent.dropRef :: es => decide (0 < rc) && validFrom (rc - 1) es

/-! ## Mount initialization (`init`) -/

/-- Modelled from the spec: the global filesystem registry's mount operation
(`crate::fs::FILESYSTEM.…​.mount`, not under `src/`) — "Mounting a second time
at the same path must be rejected".  The table is the list of occupied mount
paths; mounting on a free path adds it, a duplicate path fails. -/
def Filesystem.mount (table : List String) (path : String) :
    Option (List String) :=
  if path ∈ table then none else some (path :: table)

/-- What `init` does to the mount table: either the updated table or the
fatal abort that `.expect("Mount failed. Duplicate mount_point?")` raises. -/
inductive InitOutcome
  | done (table : List String)
  | fatal
deriving DecidableEq, Repr

/-- `init`: if the hypervisor-detection oracle (`crate::env::is_uhyve`)
answers yes, mount a fresh `UhyveDirectory` at `"/host"`, aborting fatally if
the mount is rejected; otherwise register nothing. -/
def init (isUhyve : Bool) (table : List String) : InitOutcome :=
  if isUhyve then
    match Filesystem.mount table "/host" with
    | some t => InitOutcome.done t
    | none => InitOutcome.fatal
  else InitOutcome.done table

/-! ## Helper lemmas -/

/-- Once the reference count is zero, normal drop ordering permits no further
lifecycle event. -/
theorem validFrom_zero : ∀ es : List HandleEvent,
    validFrom 0 es = true → es = [] := by
  intro es h
  cases es with
  | nil => rfl
  | cons e es => cases e <;> simp [validFrom] at h

/-- From any positive reference count, a lifecycle that respects normal drop
ordering issues exactly the one Close hypercall of the `Drop` impl. -/
theorem runHandle_valid (es : List HandleEvent) : ∀ rc : Nat, 0 < rc →
    ∀ fd : Int, validFrom rc es = true →
    runHandle rc fd es = UhyveFileHandleInner.dropClose fd := by
  induction es with
  | nil =>
    intro rc hrc fd hv
    simp [validFrom] at hv
    omega
  | cons e es ih =>
    intro rc hrc fd hv
    cases e with
    | cloneRef =>
      simp only [validFrom, Bool.and_eq_true, decide_eq_true_eq] at hv
      simpa [runHandle] using ih (rc + 1) (by omega) fd hv.2
    | dropRef =>
      simp only [validFrom, Bool.and_eq_true, decide_eq_true_eq] at hv
      by_cases h1 : rc = 1
      · subst h1
        have he : es = [] := validFrom_zero es hv.2
        subst he
        simp [runHandle]
      · rw [runHandle, if_neg h1]
        exact ih (rc - 1) (by omega) fd hv.2

/-- Every character of a concatenated path is either the injected separator
`/` or a character of one of the components. -/
theorem mem_concatPath : ∀ (cs : List String) (ch : Char),
    ch ∈ (concatPath cs).data → ch = '/' ∨ ∃ c ∈ cs, ch ∈ c.data := by
  intro cs
  induction cs with
  | nil => intro ch h; simp [concatPath] at h
  | cons c rest ih =>
    intro ch h
    simp only [concatPath, String.data_append] at h
    rcases List.mem_append.mp h with h1 | h2
    · rcases List.mem_append.mp h1 with ha | hb
      · left
        simpa using ha
      · right
        exact ⟨c, List.mem_cons_self c rest, hb⟩
    · rcases ih ch h2 with h3 | ⟨d, hd, hmem⟩
      · exact Or.inl h3
      · exact Or.inr ⟨d, List.mem_cons_of_mem c hd, hmem⟩

/-! ## Claim theorems -/

/-- C1: under normal drop ordering (every clone and drop acts on a live
reference and every reference is eventually dropped), a handle created with
reference count 1 by a successful Open produces exactly the trace
`[Close fd]`: one Close hypercall, issued when the last shared reference is
dropped, no second Close, no leak, and no hypercall at all from cloning. -/
theorem uhyve_close_exactly_once (fd : Int) (es : List HandleEvent)
    (h : validFrom 1 es = true) :
    runHandle 1 fd es = [Hypercall.closeCall fd] :=
  (runHandle_valid es 1 (by omega) fd h).trans rfl

/-- Witness for C1: clone once, drop both references; the trace is exactly
one Close of descriptor 3. -/
theorem uhyve_close_exactly_once_witness :
    validFrom 1 [HandleEvent.cloneRef, HandleEvent.dropRef,
      HandleEvent.dropRef] = true ∧
    runHandle 1 3 [HandleEvent.cloneRef, HandleEvent.dropRef,
      HandleEvent.dropRef] = [Hypercall.closeCall 3] :=
  ⟨by decide, uhyve_close_exactly_once 3 _ (by decide)⟩

/-- C2: `traverse_open` builds the host path by prefixing `/` to each
component and concatenating: components `["a","b"]` make the Open hypercall
carry `/a/b`, the empty component list makes it carry the root path
(`/` with the NUL terminator the source appends in that case). -/
theorem uhyve_open_path_construction (flags hostRet : Int) :
    (UhyveDirectory.traverse_open ["a", "b"] flags hostRet).2 =
      [Hypercall.openCall "/a/b" flags 0] ∧
    (UhyveDirectory.traverse_open [] flags hostRet).2 =
      [Hypercall.openCall "/\x00" flags 0] ∧
    ∀ cs : List String, cs ≠ [] →
      (UhyveDirectory.traverse_open cs flags hostRet).2 =
        [Hypercall.openCall (concatPath cs) flags 0] := by
  refine ⟨rfl, rfl, ?_⟩
  intro cs hcs
  simp [UhyveDirectory.traverse_open, SysOpen.new, buildOpenPath, hcs]

/-- Witness for C2: a concrete nonempty component list. -/
theorem uhyve_open_path_construction_witness :
    (["x"] : List String) ≠ [] ∧
    (UhyveDirectory.traverse_open ["x"] 0 5).2 =
      [Hypercall.openCall (concatPath ["x"]) 0 0] :=
  ⟨by decide, (uhyve_open_path_construction 0 5).2.2 ["x"] (by decide)⟩

/-- C3: `traverse_open` always issues exactly one Open hypercall carrying the
built path, the option bits and mode 0; a positive host result is wrapped as
`Ok` of a fresh handle holding that descriptor, and every non-positive result
(zero included) goes through the host-error mapping — in particular no handle
is ever constructed from a non-positive result. -/
theorem uhyve_open_result (cs : List String) (flags hostRet : Int) :
    (0 < hostRet →
      UhyveDirectory.traverse_open cs flags hostRet =
        (Outcome.ok (UhyveFileHandle.new hostRet),
         [Hypercall.openCall (buildOpenPath cs) flags 0])) ∧
    (hostRet ≤ 0 →
      UhyveDirectory.traverse_open cs flags hostRet =
        (mapHostError hostRet,
         [Hypercall.openCall (buildOpenPath cs) flags 0]) ∧
      ∀ h : UhyveFileHandle,
        (UhyveDirectory.traverse_open cs flags hostRet).1 ≠
          Outcome.ok h) := by
  constructor
  · intro hpos
    simp [UhyveDirectory.traverse_open, SysOpen.new, hpos]
  · intro hle
    have hng : ¬ hostRet > 0 := by omega
    have hfst : (UhyveDirectory.traverse_open cs flags hostRet).1 =
        mapHostError hostRet := by
      simp [UhyveDirectory.traverse_open, SysOpen.new, hng]
    refine ⟨?_, ?_⟩
    · simp [UhyveDirectory.traverse_open, SysOpen.new, hng]
    · intro h
      rw [hfst]
      cases hfc : IoError.fromCode hostRet <;> simp [mapHostError, hfc]

/-- Witness for C3: host descriptor 3 yields a handle, host code -2 yields
the mapped error and no handle. -/
theorem uhyve_open_result_witness :
    ((0 : Int) < 3 ∧
      UhyveDirectory.traverse_open ["a"] 0 3 =
        (Outcome.ok (UhyveFileHandle.new 3),
         [Hypercall.openCall (buildOpenPath ["a"]) 0 0])) ∧
    ((-2 : Int) ≤ 0 ∧
      UhyveDirectory.traverse_open ["missing"] 0 (-2) =
        (mapHostError (-2),
         [Hypercall.openCall (buildOpenPath ["missing"]) 0 0])) :=
  ⟨⟨by decide, (uhyve_open_result ["a"] 0 3).1 (by decide)⟩,
   ⟨by decide, ((uhyve_open_result ["missing"] 0 (-2)).2 (by decide)).1⟩⟩

/-- C4: each of the five unsupported directory-node operations returns
`Err(ENOSYS)` and issues no hypercall, whatever components or mode it is
given. -/
theorem uhyve_unsupported_enosys (a b c d e : List String) (mode : Nat) :
    UhyveDirectory.traverse_opendir a = (Outcome.err IoError.ENOSYS, []) ∧
    UhyveDirectory.traverse_stat b = (Outcome.err IoError.ENOSYS, []) ∧
    UhyveDirectory.traverse_lstat c = (Outcome.err IoError.ENOSYS, []) ∧
    UhyveDirectory.traverse_rmdir d = (Outcome.err IoError.ENOSYS, []) ∧
    UhyveDirectory.traverse_mkdir e mode = (Outcome.err IoError.ENOSYS, []) :=
  ⟨rfl, rfl, rfl, rfl, rfl⟩

/-- C5: a host result code outside the error-kind mapping makes read, open
and unlink surface the distinct loud-failure outcome (the `unwrap` panic on
the unmapped code), never any default typed error kind. -/
theorem uhyve_unmapped_code_loud (fd : Int) (len : Nat) (cs ds : List String)
    (flags code : Int) (hcode : IoError.fromCode code = none) :
    (code < 0 →
      (UhyveFileHandleInner.read fd len code).1 = Outcome.panicked) ∧
    (code ≤ 0 →
      (UhyveDirectory.traverse_open cs flags code).1 = Outcome.panicked) ∧
    (code ≠ 0 →
      (UhyveDirectory.traverse_unlink ds code).1 = Outcome.panicked) ∧
    ∀ e : IoError,
      (code < 0 →
        (UhyveFileHandleInner.read fd len code).1 ≠ Outcome.err e) ∧
      (code ≤ 0 →
        (UhyveDirectory.traverse_open cs flags code).1 ≠ Outcome.err e) ∧
      (code ≠ 0 →
        (UhyveDirectory.traverse_unlink ds code).1 ≠ Outcome.err e) := by
  have hr : code < 0 →
      (UhyveFileHandleInner.read fd len code).1 = Outcome.panicked := by
    intro h
    simp [UhyveFileHandleInner.read, SysRead.new, mapHostError, hcode,
      show ¬ code ≥ 0 by omega]
  have ho : code ≤ 0 →
      (UhyveDirectory.traverse_open cs flags code).1 = Outcome.panicked := by
    intro h
    simp [UhyveDirectory.traverse_open, SysOpen.new, mapHostError, hcode,
      show ¬ code > 0 by omega]
  have hu : code ≠ 0 →
      (UhyveDirectory.traverse_unlink ds code).1 = Outcome.panicked := by
    intro h
    simp [UhyveDirectory.traverse_unlink, SysUnlink.new, mapHostError,
      hcode, h]
  refine ⟨hr, ho, hu, fun e => ⟨?_, ?_, ?_⟩⟩
  · intro h
    rw [hr h]
    simp
  · intro h
    rw [ho h]
    simp
  · intro h
    rw [hu h]
    simp

/-- Witness for C5: host code -99 is unmapped; read surfaces the loud
failure. -/
theorem uhyve_unmapped_code_loud_witness :
    IoError.fromCode (-99) = none ∧ (-99 : Int) < 0 ∧
    (UhyveFileHandleInner.read 3 8 (-99)).1 = Outcome.panicked :=
  ⟨by decide, by decide,
   (uhyve_unmapped_code_loud 3 8 ["a"] ["b"] 0 (-99) (by decide)).1
     (by decide)⟩

/-- C6: `write` issues the Write hypercall and unconditionally returns `Ok`
of the requested buffer length.  The statement takes no host parameter at all
because `SysWrite` has no result field: nothing host-written is ever
inspected, so no write error and no partial write can ever be reported. -/
theorem uhyve_write_full_length (fd : Int) (len : Nat) :
    UhyveFileHandleInner.write fd len =
      (Outcome.ok (Int.ofNat len), [Hypercall.writeCall fd len]) :=
  rfl

/-- C7: `lseek` issues the Lseek hypercall carrying the descriptor, the
requested offset and the encoded whence; a nonnegative host-written offset is
returned as `Ok`, and every negative host-written offset — whichever it is —
yields exactly `Err(EINVAL)`. -/
theorem uhyve_lseek_result (fd offset : Int) (whence : SeekWhence)
    (hostOffset : Int) :
    UhyveFileHandleInner.lseek fd offset whence hostOffset =
      ((if hostOffset ≥ 0 then Outcome.ok hostOffset
        else Outcome.err IoError.EINVAL),
       [Hypercall.lseekCall fd offset whence.toCode]) ∧
    (hostOffset < 0 →
      (UhyveFileHandleInner.lseek fd offset whence hostOffset).1 =
        Outcome.err IoError.EINVAL) := by
  refine ⟨rfl, ?_⟩
  intro h
  simp [UhyveFileHandleInner.lseek, SysLseek.new, show ¬ hostOffset ≥ 0 by omega]

/-- Witness for C7: host offset -5 yields exactly `EINVAL`. -/
theorem uhyve_lseek_result_witness :
    (-5 : Int) < 0 ∧
    (UhyveFileHandleInner.lseek 3 10 SeekWhence.set (-5)).1 =
      Outcome.err IoError.EINVAL :=
  ⟨by decide, (uhyve_lseek_result 3 10 SeekWhence.set (-5)).2 (by decide)⟩

/-- C8: `traverse_unlink` issues the Unlink hypercall carrying the built path
and succeeds exactly when the host wrote 0; every nonzero result goes through
the host-error mapping — concretely, `unlink(["a"])` with host result 0 is a
success and with host result -13 is the "permission denied" error. -/
theorem uhyve_unlink_result (cs : List String) (hostRet : Int) :
    UhyveDirectory.traverse_unlink cs hostRet =
      ((if hostRet = 0 then Outcome.ok () else mapHostError hostRet),
       [Hypercall.unlinkCall (buildUnlinkPath cs)]) ∧
    UhyveDirectory.traverse_unlink ["a"] 0 =
      (Outcome.ok (), [Hypercall.unlinkCall "/a"]) ∧
    (UhyveDirectory.traverse_unlink ["a"] (-13)).1 =
      Outcome.err IoError.EACCES := by
  refine ⟨rfl, rfl, ?_⟩
  decide

/-- C9: `init` mounts a `UhyveDirectory` at the fixed path `/host` exactly
when the hypervisor-detection oracle answers yes (when it answers no the
mount table is untouched), and a rejected mount — such as a duplicate at
`/host` — is the fatal abort, not a recoverable result. -/
theorem uhyve_init_mount (u : Bool) (t : List String) :
    (u = false → init u t = InitOutcome.done t) ∧
    (u = true →
      ("/host" ∉ t → init u t = InitOutcome.done ("/host" :: t)) ∧
      ("/host" ∈ t → init u t = InitOutcome.fatal)) := by
  constructor
  · intro h
    subst h
    rfl
  · intro h
    subst h
    constructor
    · intro hn
      simp [init, Filesystem.mount, hn]
    · intro hm
      simp [init, Filesystem.mount, hm]

/-- Witness for C9: no mount when not under uhyve, a fresh mount at `/host`
when under uhyve, a fatal abort on the duplicate. -/
theorem uhyve_init_mount_witness :
    init false ["/x"] = InitOutcome.done ["/x"] ∧
    ("/host" ∉ (["/x"] : List String) ∧
      init true ["/x"] = InitOutcome.done ["/host", "/x"]) ∧
    ("/host" ∈ (["/host"] : List String) ∧
      init true ["/host"] = InitOutcome.fatal) :=
  ⟨(uhyve_init_mount false ["/x"]).1 rfl,
   ⟨by decide, ((uhyve_init_mount true ["/x"]).2 rfl).1 (by decide)⟩,
   ⟨by decide, ((uhyve_init_mount true ["/host"]).2 rfl).2 (by decide)⟩⟩

/-- C10: the empty-components path is `"/\0"` (NUL-terminated) in
`traverse_open` but `"/"` (no terminator) in `traverse_unlink`, while for any
nonempty component list whose components contain no NUL, both operations
build the same bare concatenated path with no NUL byte anywhere, trailing or
otherwise. -/
theorem uhyve_path_nul_handling :
    buildOpenPath [] = "/\x00" ∧
    buildUnlinkPath [] = "/" ∧
    ∀ cs : List String, cs ≠ [] → (∀ c ∈ cs, '\x00' ∉ c.data) →
      buildOpenPath cs = buildUnlinkPath cs ∧
      buildOpenPath cs = concatPath cs ∧
      '\x00' ∉ (buildOpenPath cs).data := by
  refine ⟨rfl, rfl, ?_⟩
  intro cs hne hnul
  have h1 : buildOpenPath cs = concatPath cs := by
    simp [buildOpenPath, hne]
  have h2 : buildUnlinkPath cs = concatPath cs := by
    simp [buildUnlinkPath, hne]
  refine ⟨h1.trans h2.symm, h1, ?_⟩
  rw [h1]
  intro hmem
  rcases mem_concatPath cs _ hmem with h | ⟨c, hc, hcm⟩
  · exact absurd h (by decide)
  · exact hnul c hc hcm

/-- Witness for C10: the components `["a","b"]` are NUL-free; both builders
agree on `/a/b` and it contains no NUL byte. -/
theorem uhyve_path_nul_handling_witness :
    (["a", "b"] : List String) ≠ [] ∧
    (∀ c ∈ (["a", "b"] : List String), '\x00' ∉ c.data) ∧
    buildOpenPath ["a", "b"] = buildUnlinkPath ["a", "b"] ∧
    '\x00' ∉ (buildOpenPath ["a", "b"]).data :=
  ⟨by decide, by decide,
   (uhyve_path_nul_handling.2.2 ["a", "b"] (by decide) (by decide)).1,
   (uhyve_path_nul_handling.2.2 ["a", "b"] (by decide) (by decide)).2.2⟩
